import Mathlib

/-!
A shallow embedding of `main.py` of the money-mind-automation repository
(a sequential video-generation pipeline), together with theorems checking
the natural-language specification against it.

External effects (HTTP calls, library calls such as `json.loads`,
`moviepy`, `gTTS`, PIL) are modelled by explicit outcome parameters:
a step that may raise is an `Except Err` value, so that the control flow
of the Python source (its `try`/`except` structure, branch conditions and
evaluation order) is reproduced faithfully in Lean.
-/

namespace MoneyMind

/-- Python exceptions, as far as the embedding needs to distinguish them. -/
inductive Err where
  | nameError (n : String)
  | fileNotFound (p : String)
  | typeError
  | generic (s : String)
deriving DecidableEq

/-- Whether an `Except` computation succeeded. -/
def isOkE {α : Type} : Except Err α → Bool
  | .ok _ => true
  | .error _ => false

/-- A JSON value, the result type of a successful `json.loads`. -/
inductive Json where
  | null
  | bool (b : Bool)
  | num (n : Int)
  | str (s : String)
  | arr (xs : List Json)
  | obj (kvs : List (String × Json))
deriving BEq

/-! ## File paths written by the program

Each operation of `main.py` that creates a file does so at one of the
following paths (lines 126, 150, 160, 183, 270-271, 294, 298, 303 of the
source). -/

/-- The static image read by the no-clip fallback of `assemble_video`
(`THUMBS_DIR / "fallback.jpg"`, line 226). -/
def fallbackImagePath : String := "thumbnails/fallback.jpg"

/-- Destination of a Pexels video download: `CLIPS_DIR / f"pexels_{id}.mp4"`. -/
def pexelsDest (id : Nat) : String := "clips/pexels_" ++ (toString id ++ ".mp4")

/-- Destination of a Pixabay video download: `CLIPS_DIR / f"pix_{id}.mp4"`. -/
def pixVideoDest (id : Nat) : String := "clips/pix_" ++ (toString id ++ ".mp4")

/-- Destination of a Pixabay image download: `CLIPS_DIR / f"pix_img_{id}.jpg"`. -/
def pixImgDest (id : Nat) : String := "clips/pix_img_" ++ (toString id ++ ".jpg")

/-- Destination of a Pixabay music download: `MUSIC_DIR / f"pix_music_{id}.mp3"`. -/
def musicDest (id : Nat) : String := "music/pix_music_" ++ (toString id ++ ".mp3")

/-- Long narration output path: `OUTDIR / f"voice_long_{stamp}.mp3"`. -/
def voiceLongPath (stamp : String) : String := "outputs/voice_long_" ++ (stamp ++ ".mp3")

/-- Short narration output path: `OUTDIR / f"voice_short_{stamp}.mp3"`. -/
def voiceShortPath (stamp : String) : String := "outputs/voice_short_" ++ (stamp ++ ".mp3")

/-- Thumbnail output path: `THUMBS_DIR / f"thumb_{stamp}.jpg"`. -/
def thumbPath (stamp : String) : String := "thumbnails/thumb_" ++ (stamp ++ ".jpg")

/-- Long video output path: `OUTDIR / f"money_mind_long_{stamp}.mp4"`. -/
def longOutPath (stamp : String) : String := "outputs/money_mind_long_" ++ (stamp ++ ".mp4")

/-- Short video output path: `OUTDIR / f"money_mind_short_{stamp}.mp4"`. -/
def shortOutPath (stamp : String) : String := "outputs/money_mind_short_" ++ (stamp ++ ".mp4")

/-! ## Script/metadata generator (`generate_script_and_meta`, lines 60-82) -/

/-- Python `str.split()` with no argument: split on runs of whitespace and
drop empty pieces. -/
def pySplit (s : String) : List String :=
  (s.split Char.isWhitespace).filter (fun w => w ≠ "")

/-- The fallback title: `" ".join(topic.split()[:6]) + " - Money Mind"` (line 81). -/
def fallbackTitle (topic : String) : String :=
  String.intercalate " " ((pySplit topic).take 6) ++ " - Money Mind"

/-- The fallback metadata dictionary built on a `json.loads` failure (line 81). -/
def fallbackMeta (topic : String) : List (String × Json) :=
  [("title", .str (fallbackTitle topic)),
   ("description", .str (topic ++ " - watch to learn.")),
   ("tags", .arr [.str "finance", .str "money", .str "mindset"])]

/-- The two script entries that the returned dictionary always starts with
(line 82: `{"script_long": ..., "script_short": ..., **meta}`). -/
def scriptFields (script_long script_short : String) : List (String × Json) :=
  [("script_long", .str script_long), ("script_short", .str script_short)]

/-- `generate_script_and_meta(topic)`, lines 60-82.  The two script texts and
the outcome of `json.loads(meta_json)` (a `Json` on success, `none` when the
metadata response is not valid JSON) are parameters standing for the three
`gpt_generate` network calls and the parse.  A parse success that is not a
JSON object makes the final `{**meta}` dictionary merge raise `TypeError`. -/
def generate_script_and_meta (topic script_long script_short : String)
    (metaParsed : Option Json) : Except Err (List (String × Json)) :=
  match metaParsed with
  | some (Json.obj kvs) => .ok (scriptFields script_long script_short ++ kvs)
  | some _ => .error .typeError
  | none => .ok (scriptFields script_long script_short ++ fallbackMeta topic)

/-! ## Speech synthesizer (`text_to_speech_openai`, lines 85-112) -/

/-- Outcome of the primary synthesis attempt (the `requests.post` to the
OpenAI speech endpoint, line 97): either it raised, or it returned a
response with a status code and a content-type header. -/
inductive PrimaryOutcome where
  | raised (e : Err)
  | resp (status : Nat) (contentType : String)

/-- Line 98: the primary attempt succeeded when the response is a 200 whose
content type starts with "audio" (then the body is written to `out_path`). -/
def primaryOk : PrimaryOutcome → Bool
  | .raised _ => false
  | .resp status ctype => status == 200 && ctype.startsWith "audio"

/-- `text_to_speech_openai(text, out_path)`, lines 85-112.  `gtts` is the
outcome of the whole fallback block (the `gTTS` import, synthesis and save,
lines 105-109).  Returns (fallback attempted?, result): on primary success
the path is returned at line 100 without touching the fallback; otherwise
the fallback runs and its exception, if any, is re-raised at line 112. -/
def text_to_speech_openai (primary : PrimaryOutcome) (gtts : Except Err Unit)
    (out_path : String) : Bool × Except Err String :=
  if primaryOk primary then (false, .ok out_path)
  else (true, gtts.map (fun _ => out_path))

/-! ## Stock media fetchers (`fetch_pexels_videos`, lines 115-133, and
`fetch_pixabay_media`, lines 135-167)

The search responses are parameters (lists of hits); the loop over the
hits, with its on-disk cache check and download, is embedded as a fold
over an explicit state: the list returned so far, the set of files on
disk, and the download requests issued (as (destination, url) pairs). -/

/-- A hit of the Pexels video search: its id and the link of the chosen
(last) entry of `video_files` (line 125). -/
structure PexelsHit where
  id : Nat
  link : String

/-- A hit of the Pixabay search: its id, the medium-rendition video url
(`hit["videos"]["medium"]["url"]`, possibly absent) and the large image
url (`hit["largeImageURL"]`, possibly absent). -/
structure PixabayHit where
  id : Nat
  mediumUrl : Option String
  largeImageURL : Option String

/-- State threaded through a fetch loop. -/
structure FetchState where
  out : List String
  files : List String
  downloads : List (String × String)

/-- Loop body of `fetch_pexels_videos` (lines 123-132): skip the download
when the destination already exists, else stream it to disk; the
destination path is appended to the result either way. -/
def pexelsStep (st : FetchState) (v : PexelsHit) : FetchState :=
  let dest := pexelsDest v.id
  if dest ∈ st.files then
    { st with out := st.out ++ [dest] }
  else
    { out := st.out ++ [dest], files := st.files ++ [dest],
      downloads := st.downloads ++ [(dest, v.link)] }

/-- `fetch_pexels_videos(query, count)` over a given search response and
initial disk state: the loop runs over the first `count` hits. -/
def fetch_pexels_videos (count : Nat) (hits : List PexelsHit)
    (fs0 : List String) : FetchState :=
  (hits.take count).foldl pexelsStep { out := [], files := fs0, downloads := [] }

/-- Loop body of the `media_type == "video"` branch of `fetch_pixabay_media`
(lines 147-156): a hit without a medium video url contributes nothing. -/
def pixabayVideoStep (st : FetchState) (h : PixabayHit) : FetchState :=
  match h.mediumUrl with
  | none => st
  | some url =>
    let dest := pixVideoDest h.id
    if dest ∈ st.files then
      { st with out := st.out ++ [dest] }
    else
      { out := st.out ++ [dest], files := st.files ++ [dest],
        downloads := st.downloads ++ [(dest, url)] }

/-- Loop body of the image branch of `fetch_pixabay_media` (lines 157-166). -/
def pixabayImageStep (st : FetchState) (h : PixabayHit) : FetchState :=
  match h.largeImageURL with
  | none => st
  | some url =>
    let dest := pixImgDest h.id
    if dest ∈ st.files then
      { st with out := st.out ++ [dest] }
    else
      { out := st.out ++ [dest], files := st.files ++ [dest],
        downloads := st.downloads ++ [(dest, url)] }

/-- `fetch_pixabay_media(query, count, media_type)` over a given search
response and initial disk state; `isVideoKind` selects the branch. -/
def fetch_pixabay_media (isVideoKind : Bool) (count : Nat)
    (hits : List PixabayHit) (fs0 : List String) : FetchState :=
  (hits.take count).foldl (if isVideoKind then pixabayVideoStep else pixabayImageStep)
    { out := [], files := fs0, downloads := [] }

/-! ## Thumbnail renderer (`create_thumbnail`, lines 193-213) -/

/-- A PIL font: either the requested truetype font or the default bitmap
font `ImageFont.load_default()`. -/
inductive PyFont where
  | truetype (name : String) (size : Nat)
  | default
deriving DecidableEq

/-- Greedy word wrap, modelling `textwrap.wrap(text, width)` with its
default options: words are runs of non-whitespace, packed left to right
into lines of at most `width` characters (a single word longer than the
width keeps its own line; the long-word breaking of `textwrap` is not
modelled, the properties proved below do not depend on it). -/
def wrapStep (width : Nat) (lines : List String) (w : String) : List String :=
  match lines with
  | [] => [w]
  | cur :: rest =>
    if cur.length + 1 + w.length ≤ width then (cur ++ " " ++ w) :: rest
    else w :: cur :: rest

/-- The wrapped lines of a text at a given width. -/
def pyWrap (width : Nat) (text : String) : List String :=
  ((pySplit text).foldl (wrapStep width) []).reverse

/-- The rendered thumbnail: canvas size and background (line 195-197), the
font in use, the rendered title lines and the footer text (lines 205-211). -/
structure Thumbnail where
  size : Nat × Nat
  bg : Nat × Nat × Nat
  font : PyFont
  titleLines : List String
  footer : String
deriving DecidableEq

/-- `create_thumbnail(title_text, out_path)`, lines 193-213.  `fontLoad` is
the outcome of `ImageFont.truetype("arialbd.ttf", 72)`; its failure is
caught at line 202 and the default font is used.  The title is wrapped at
width 18 and only the first three lines are drawn (line 207). -/
def create_thumbnail (fontLoad : Except Err PyFont) (title_text : String) : Thumbnail :=
  let fnt := match fontLoad with
    | .ok f => f
    | .error _ => PyFont.default
  { size := (1280, 720), bg := (20, 20, 30), font := fnt,
    titleLines := (pyWrap 18 title_text).take 3,
    footer := "Money Mind • Subscribe" }

/-! ## Video assembler (`assemble_video`, lines 216-246) -/

/-- The local filesystem together with how the media library reads a file:
which paths exist, whether an existing path opens as a video
(`VideoFileClip` succeeds), and its duration in seconds when opened.
An existing path that does not open as a video is assumed to open as an
image (the `ImageClip` fallback of line 236). -/
structure FS where
  files : List String
  isVideo : String → Bool
  dur : String → ℚ

/-- `AudioFileClip(path)`: raises when the file is missing, else yields
its duration. -/
def openAudio (fs : FS) (p : String) : Except Err ℚ :=
  if p ∈ fs.files then .ok (fs.dur p) else .error (.fileNotFound p)

/-- The per-clip allotted span of line 230:
`per_clip = max(2, audio_dur / max(1, len(clip_files)))`. -/
def per_clip (audio_dur : ℚ) (n : Nat) : ℚ :=
  max 2 (audio_dur / ((max 1 n : Nat) : ℚ))

/-- A clip planned into the final sequence: a trimmed video or a still
image with an assigned duration (all resized to 1280x720). -/
inductive PlannedClip where
  | video (path : String) (duration : ℚ)
  | image (path : String) (duration : ℚ)
deriving DecidableEq

/-- Lines 231-237: open a clip file, trim a video to
`min(per_clip, duration)`, fall back to a still image of span `per` when
the file is not a video; a missing file raises (the `ImageClip(cf)` inside
the `except` block raises again and propagates). -/
def planClip (fs : FS) (per : ℚ) (cf : String) : Except Err PlannedClip :=
  if cf ∈ fs.files then
    if fs.isVideo cf then .ok (.video cf (min per (fs.dur cf)))
    else .ok (.image cf per)
  else .error (.fileNotFound cf)

/-- Lines 224-237: the list of planned clips.  With no clip files, a single
static image spanning the whole narration is read from
`thumbnails/fallback.jpg` (raising when that file is missing); otherwise
every clip file is planned with the shared allotted span. -/
def buildClips (fs : FS) (audio_dur : ℚ) (clip_files : List String) :
    Except Err (List PlannedClip) :=
  match clip_files with
  | [] =>
    if fallbackImagePath ∈ fs.files then
      .ok [.image fallbackImagePath audio_dur]
    else .error (.fileNotFound fallbackImagePath)
  | _ =>
    clip_files.mapM (planClip fs (per_clip audio_dur clip_files.length))

/-- The names bound at module scope in `main.py`: the imports of lines 9-20
and the module-level assignments and function definitions.  Notably, what
the module imports from `moviepy.editor` (lines 18-20) includes
`CompositeVideoClip` but not `CompositeAudioClip`. -/
def moduleNames : List String :=
  ["os", "json", "tempfile", "random", "textwrap", "Path", "datetime",
   "requests", "Image", "ImageDraw", "ImageFont",
   "AudioFileClip", "ImageClip", "concatenate_videoclips",
   "CompositeVideoClip", "TextClip", "VideoFileClip",
   "OUTDIR", "CLIPS_DIR", "MUSIC_DIR", "THUMBS_DIR",
   "OPENAI_KEY", "PEXELS_KEY", "PIXABAY_KEY", "YOUTUBE_API_KEY",
   "YT_CLIENT_ID", "YT_CLIENT_SECRET", "YT_REFRESH_TOKEN",
   "OPENAI_HEADERS", "PEXELS_HEADERS",
   "gpt_generate", "generate_script_and_meta", "text_to_speech_openai",
   "fetch_pexels_videos", "fetch_pixabay_media", "fetch_pixabay_music",
   "create_thumbnail", "assemble_video", "upload_to_youtube", "run_cycle"]

/-- Python name resolution at module scope: an unbound name raises
`NameError`. -/
def resolveName (n : String) : Except Err Unit :=
  if n ∈ moduleNames then .ok () else .error (.nameError n)

/-- `assemble_video(voice_file, clip_files, music_file, out_file)`,
lines 216-246.  Opens the narration, plans the clip sequence, and when a
music file is given first builds the background track
(`AudioFileClip(music).volumex(0.12).set_duration(audio_dur)`, line 241)
and then evaluates the name `CompositeAudioClip` (line 243), which is not
bound at module scope; finally renders to `out_file`. -/
def assemble_video (fs : FS) (voice_file : String) (clip_files : List String)
    (music_file : Option String) (out_file : String) : Except Err String := do
  let audio_dur ← openAudio fs voice_file
  let _clips ← buildClips fs audio_dur clip_files
  match music_file with
  | some m => do
    let _bgDur ← openAudio fs m
    let _ ← resolveName "CompositeAudioClip"
    pure ()
  | none => pure ()
  pure out_file

/-! ## Uploader (`upload_to_youtube`, lines 249-261) -/

/-- Python truthiness of an optional environment value: `None` and the
empty string are falsy. -/
def truthy : Option String → Bool
  | none => false
  | some s => s ≠ ""

/-- Which branch `upload_to_youtube` takes; the two branches log different
messages (lines 255 and 260). -/
inductive UploadOutcome where
  | skipped
  | attempted
deriving DecidableEq

/-- The message printed by each branch. -/
def uploadLog : UploadOutcome → String
  | .skipped => "YouTube OAuth credentials not provided. Skipping upload."
  | .attempted =>
    "Upload logic here - OAuth found. Implement upload with google-auth client and youtube API."

/-- `upload_to_youtube(...)`, lines 249-261: skip unless all three OAuth
credential values are truthy; either branch returns Python `None` (the
second component), upload itself being unimplemented. -/
def upload_to_youtube (cid secret tok : Option String) :
    UploadOutcome × Option Unit :=
  if truthy cid && truthy secret && truthy tok then (.attempted, none)
  else (.skipped, none)

/-! ## Cycle orchestrator (`run_cycle`, lines 264-314)

Each pipeline step is an outcome parameter; `run_cycle` reproduces the
control flow of the source: only the two stock-media fetches are wrapped
in `try`/`except` (lines 280-287), every other step call is bare, so its
exception propagates out of `run_cycle`. -/

/-- The dictionary returned by `generate_script_and_meta`: the two script
texts (always present, line 82) and the metadata entries. -/
structure ScriptBundle where
  script_long : String
  script_short : String
  meta : List (String × Json)

/-- Outcomes of the external steps of one cycle, plus the OAuth credential
environment values read at lines 38-40. -/
structure CycleEnv where
  genMeta : Except Err ScriptBundle
  ttsLong : Except Err Unit
  ttsShort : Except Err Unit
  pexels : Except Err (List String)
  pixabay : Except Err (List String)
  music : Except Err (Option String)
  thumb : Except Err Unit
  asmLong : Except Err Unit
  asmShort : Except Err Unit
  ytCid : Option String
  ytSecret : Option String
  ytTok : Option String

/-- The arguments of one `assemble_video` call made by `run_cycle`. -/
structure AssembleCall where
  voice : String
  clips : List String
  music : Option String
  out : String
deriving DecidableEq

/-- What one completed cycle did: the accumulated clip list, the music
track, the two assembly calls with their arguments, the thumbnail title,
the two upload outcomes and the failure log lines. -/
structure CycleTrace where
  clips : List String
  music : Option String
  longCall : AssembleCall
  shortCall : AssembleCall
  thumbTitle : Json
  uploads : List UploadOutcome
  logs : List String

/-- The value of a caught best-effort fetch: its list on success, the empty
list when the exception was swallowed. -/
def okD (e : Except Err (List String)) : List String :=
  match e with
  | .ok l => l
  | .error _ => []

/-- The log line a caught fetch failure prints (lines 283 and 287), if any. -/
def fetchLog (label : String) (e : Except Err (List String)) : List String :=
  match e with
  | .ok _ => []
  | .error _ => [label]

/-- `run_cycle(topic)`, lines 264-314.  Script generation (line 267) and the
two TTS calls (lines 273, 275) are bare, so their exceptions abort the run.
The two clip fetches are each wrapped in `try`/`except` that logs and
continues, accumulating into `clips` (lines 279-287).  The music fetch
(line 290), the thumbnail (line 295) and the two `assemble_video` calls
(lines 300, 307) are bare again.  The long assembly receives the full clip
list, the short assembly `clips[:2]`, both with the same music track.
Finally both uploads run (they cannot raise). -/
def run_cycle (env : CycleEnv) (stamp : String) : Except Err CycleTrace := do
  let bundle ← env.genMeta
  let _ ← env.ttsLong
  let _ ← env.ttsShort
  let clips := okD env.pexels ++ okD env.pixabay
  let logs := fetchLog "Pexels fail" env.pexels ++ fetchLog "Pixabay fail" env.pixabay
  let music ← env.music
  let _ ← env.thumb
  let title := ((bundle.meta.lookup "title").getD (Json.str "Money Mind"))
  let longCall : AssembleCall :=
    ⟨voiceLongPath stamp, clips, music, longOutPath stamp⟩
  let _ ← env.asmLong
  let shortCall : AssembleCall :=
    ⟨voiceShortPath stamp, clips.take 2, music, shortOutPath stamp⟩
  let _ ← env.asmShort
  let up1 := upload_to_youtube env.ytCid env.ytSecret env.ytTok
  let up2 := upload_to_youtube env.ytCid env.ytSecret env.ytTok
  pure { clips := clips, music := music, longCall := longCall,
         shortCall := shortCall, thumbTitle := title,
         uploads := [up1.1, up2.1], logs := logs }

/-! ## Helper lemmas -/

/-- Two strings differ when, below the length of a left factor of the
first, some character differs. -/
lemma append_ne_of_char (p q r : String) (i : Nat) (hi : i < p.data.length)
    (hne : p.data[i]? ≠ r.data[i]?) : p ++ q ≠ r := by
  intro h
  apply hne
  rw [← h, String.data_append, List.getElem?_append_left hi]

/-- A predicate preserved by every step of a fold is preserved by the fold. -/
lemma foldl_pres {α : Type} (step : FetchState → α → FetchState)
    (I : FetchState → Prop) (hstep : ∀ st a, I st → I (step st a)) :
    ∀ (l : List α) (st : FetchState), I st → I (l.foldl step st) := by
  intro l
  induction l with
  | nil => intro st h; exact h
  | cons a l ih => intro st h; exact ih _ (hstep _ _ h)

/-- If every step keeps the output list monotone and the step at one listed
element emits `x`, the fold over the list emits `x`. -/
lemma foldl_out_mem {α : Type} (step : FetchState → α → FetchState) (x : String)
    (hmono : ∀ st c y, y ∈ st.out → y ∈ (step st c).out)
    (l : List α) (a : α) (ha : a ∈ l) (hself : ∀ st, x ∈ (step st a).out) :
    ∀ st, x ∈ (l.foldl step st).out := by
  induction l with
  | nil => cases ha
  | cons b l ih =>
    intro st
    rcases List.mem_cons.mp ha with rfl | h'
    · exact foldl_pres step (fun s => x ∈ s.out) (fun s c hx => hmono s c x hx)
        l (step st a) (hself st)
    · exact ih h' (step st b)

/-! ## Theorems -/

/-- Claim C3, counterexample: on the valid-JSON metadata response `{}` (an
object with no entries), `generate_script_and_meta` returns the parsed
dictionary as-is, which has no "title" key at all — against the claim that
a returned parse carries the keys title, description and tags. -/
theorem generate_meta_valid_json_may_lack_keys :
    (generate_script_and_meta "budgeting tips" "L" "S" (some (Json.obj []))).map
      (fun kvs => kvs.lookup "title") = .ok none := rfl

/-- Claim C3 (amended): a metadata response that parses as a JSON object is
returned with exactly its own keys appended after the two script entries
(no key guarantee; a valid non-object response raises `TypeError`), while a
response that is not valid JSON yields the deterministic fallback computed
purely from the topic: title = first six whitespace-separated words of the
topic suffixed with " - Money Mind", the generic description mentioning
the topic, and the fixed tag list. -/
theorem generate_meta_branches (topic l s : String) (kvs : List (String × Json))
    (n : Int) :
    generate_script_and_meta topic l s (some (Json.obj kvs)) =
      .ok (scriptFields l s ++ kvs)
    ∧ generate_script_and_meta topic l s none =
      .ok (scriptFields l s ++ fallbackMeta topic)
    ∧ (fallbackMeta topic).lookup "title" =
      some (.str (String.intercalate " " ((pySplit topic).take 6) ++ " - Money Mind"))
    ∧ (fallbackMeta topic).lookup "description" =
      some (.str (topic ++ " - watch to learn."))
    ∧ (fallbackMeta topic).lookup "tags" =
      some (.arr [.str "finance", .str "money", .str "mindset"])
    ∧ generate_script_and_meta topic l s (some (Json.num n)) = .error .typeError :=
  ⟨rfl, rfl, rfl, rfl, rfl, rfl⟩

/-- Claim C4: the upload step takes the skipped branch precisely when at
least one of the three OAuth credential values is absent (falsy), and the
attempt branch precisely when all three are present; the two branches are
distinguishable (they log different messages), though the Python return
value is `None` in both. -/
theorem upload_skip_iff (cid sec tok : Option String) :
    ((upload_to_youtube cid sec tok).1 = .skipped ↔
      (truthy cid = false ∨ truthy sec = false ∨ truthy tok = false))
    ∧ ((upload_to_youtube cid sec tok).1 = .attempted ↔
      (truthy cid = true ∧ truthy sec = true ∧ truthy tok = true))
    ∧ uploadLog .skipped ≠ uploadLog .attempted
    ∧ (upload_to_youtube cid sec tok).2 = none := by
  refine ⟨?_, ?_, by decide, ?_⟩ <;>
    cases hc : truthy cid <;> cases hs : truthy sec <;> cases ht : truthy tok <;>
      simp [upload_to_youtube, hc, hs, ht]

/-- Claim C7: speech synthesis attempts the fallback exactly when the
primary attempt did not yield a 200 response with an audio content type;
with a successful fallback it returns the destination path, with a failed
fallback it re-raises the fallback error, and overall it fails exactly
when both mechanisms fail. -/
theorem tts_fallback_spec (p : PrimaryOutcome) (g : Except Err Unit)
    (out : String) (e : Err) :
    ((text_to_speech_openai p g out).1 = !(primaryOk p))
    ∧ ((text_to_speech_openai p (.ok ()) out).2 = .ok out)
    ∧ ((text_to_speech_openai p (.error e) out).2 =
        if primaryOk p then .ok out else .error e)
    ∧ (isOkE (text_to_speech_openai p g out).2 = (primaryOk p || isOkE g)) := by
  cases hp : primaryOk p <;> cases g <;>
    simp [text_to_speech_openai, hp, isOkE, Except.map]

/-- Claim C8: the thumbnail is a fixed 1280x720 canvas carrying at most
three word-wrapped title lines (exactly three whenever the wrap yields
three or more) and the fixed footer; a font-loading failure falls back to
the default font, the renderer never raising over it. -/
theorem create_thumbnail_spec (fontLoad : Except Err PyFont) (title : String)
    (e : Err) :
    (create_thumbnail fontLoad title).size = (1280, 720)
    ∧ (create_thumbnail fontLoad title).titleLines = (pyWrap 18 title).take 3
    ∧ ((create_thumbnail fontLoad title).titleLines).length =
        min 3 (pyWrap 18 title).length
    ∧ (create_thumbnail fontLoad title).footer = "Money Mind • Subscribe"
    ∧ (create_thumbnail (.error e) title).font = PyFont.default :=
  ⟨rfl, rfl, List.length_take 3 _, rfl, rfl⟩

/-- A concrete filesystem used to instantiate hypotheses: the fallback
image, a narration file, a music file and one video clip exist; every
media file opens with duration 10 seconds. -/
def fsEx : FS :=
  { files := ["thumbnails/fallback.jpg", "v.mp3", "m.mp3", "c1.mp4"],
    isVideo := fun p => p == "c1.mp4",
    dur := fun _ => 10 }

/-- Claim C2: with narration duration `D` and a non-empty list of clip
files, the shared allotted span of line 230 is at least 2 seconds and the
spans sum to at least `D`; with no clip files, the plan is a single static
image whose duration is exactly `D`. -/
theorem assemble_partition (fs : FS) (D : ℚ) (files : List String)
    (hne : files ≠ []) (_hD : 0 ≤ D) (hfb : fallbackImagePath ∈ fs.files) :
    2 ≤ per_clip D files.length
    ∧ D ≤ (files.length : ℚ) * per_clip D files.length
    ∧ buildClips fs D [] = .ok [.image fallbackImagePath D] := by
  have hn : 1 ≤ files.length := List.length_pos.mpr hne
  have hmax : max 1 files.length = files.length := Nat.max_eq_right hn
  have hcast : ((max 1 files.length : Nat) : ℚ) = (files.length : ℚ) := by
    rw [hmax]
  have hn0 : (0 : ℚ) < (files.length : ℚ) := by exact_mod_cast hn
  refine ⟨le_max_left _ _, ?_, by simp [buildClips, hfb]⟩
  have h2 : D / (files.length : ℚ) ≤ per_clip D files.length := by
    rw [per_clip, hcast]; exact le_max_right _ _
  have h3 : D ≤ per_clip D files.length * (files.length : ℚ) :=
    (div_le_iff₀ hn0).mp h2
  linarith [h3]

/-- Witness for the hypotheses of `assemble_partition`, at one clip file
and a 10-second narration over the concrete filesystem. -/
theorem assemble_partition_witness :
    2 ≤ per_clip 10 1
    ∧ (10 : ℚ) ≤ ((1 : Nat) : ℚ) * per_clip 10 1
    ∧ buildClips fsEx 10 [] = .ok [.image fallbackImagePath 10] := by
  have h := assemble_partition fsEx 10 ["c1.mp4"] (by decide) (by norm_num)
    (by decide)
  exact ⟨h.1, h.2.1, h.2.2⟩

/-- Claim C5 (code bug): `assemble_video` with a non-`none` music file can
never return successfully — every run either fails earlier or reaches the
unbound name `CompositeAudioClip` at line 243 (`moviepy.editor` imports
only `CompositeVideoClip`) and raises `NameError`; concretely so on a
filesystem where every referenced file exists and opens. -/
theorem assemble_video_music_never_ok (fs : FS) (voice : String)
    (clip_files : List String) (m out : String) :
    isOkE (assemble_video fs voice clip_files (some m) out) = false
    ∧ assemble_video fsEx "v.mp3" ["c1.mp4"] (some "m.mp3") "outputs/out.mp4" =
      .error (.nameError "CompositeAudioClip") := by
  constructor
  · cases h1 : openAudio fs voice with
    | error e => simp only [assemble_video, h1]; rfl
    | ok d =>
      simp only [assemble_video, h1]
      change isOkE (buildClips fs d clip_files >>= _) = false
      cases h2 : buildClips fs d clip_files with
      | error e => rfl
      | ok cl =>
        change isOkE (openAudio fs m >>= _) = false
        cases h3 : openAudio fs m with
        | error e => rfl
        | ok d2 => rfl
  · rfl

/-- Claim C9: the no-clip branch of the assembler reads exactly
`thumbnails/fallback.jpg` — succeeding precisely when that file exists and
raising a file-open error otherwise — while every path the program ever
writes (thumbnails, stock clips and images, music, narration, rendered
videos) differs from it for all stamps and remote ids. -/
theorem fallback_image_never_written (fs : FS) (D : ℚ) (stamp : String)
    (idp idv idi idm : Nat) :
    buildClips fs D [] =
      (if fallbackImagePath ∈ fs.files then .ok [.image fallbackImagePath D]
       else .error (.fileNotFound fallbackImagePath))
    ∧ thumbPath stamp ≠ fallbackImagePath
    ∧ pexelsDest idp ≠ fallbackImagePath
    ∧ pixVideoDest idv ≠ fallbackImagePath
    ∧ pixImgDest idi ≠ fallbackImagePath
    ∧ musicDest idm ≠ fallbackImagePath
    ∧ voiceLongPath stamp ≠ fallbackImagePath
    ∧ voiceShortPath stamp ≠ fallbackImagePath
    ∧ longOutPath stamp ≠ fallbackImagePath
    ∧ shortOutPath stamp ≠ fallbackImagePath := by
  refine ⟨rfl, ?_, ?_, ?_, ?_, ?_, ?_, ?_, ?_, ?_⟩
  · exact append_ne_of_char _ _ _ 11 (by decide) (by decide)
  · exact append_ne_of_char _ _ _ 0 (by decide) (by decide)
  · exact append_ne_of_char _ _ _ 0 (by decide) (by decide)
  · exact append_ne_of_char _ _ _ 0 (by decide) (by decide)
  · exact append_ne_of_char _ _ _ 0 (by decide) (by decide)
  · exact append_ne_of_char _ _ _ 0 (by decide) (by decide)
  · exact append_ne_of_char _ _ _ 0 (by decide) (by decide)
  · exact append_ne_of_char _ _ _ 0 (by decide) (by decide)
  · exact append_ne_of_char _ _ _ 0 (by decide) (by decide)

/-- A concrete script bundle with empty metadata. -/
def bundleEx : ScriptBundle := ⟨"L", "S", []⟩

/-- A cycle environment in which every step succeeds except the music
fetch, which raises an HTTP error. -/
def envMusicFail : CycleEnv :=
  { genMeta := .ok bundleEx, ttsLong := .ok (), ttsShort := .ok (),
    pexels := .ok ["clips/pexels_1.mp4"], pixabay := .ok [],
    music := .error (.generic "HTTPError"), thumb := .ok (),
    asmLong := .ok (), asmShort := .ok (),
    ytCid := none, ytSecret := none, ytTok := none }

/-- Claim C1, counterexample: with every other step succeeding, an
exception raised by the music fetch (line 290 carries no `try`/`except`)
propagates out of `run_cycle` and aborts the run — against the claim that
the music fetch is caught and logged and the pipeline proceeds. -/
theorem run_cycle_music_failure_aborts :
    run_cycle envMusicFail "20240101000000" = .error (.generic "HTTPError") := rfl

/-- Claim C1 (amended): a cycle completes exactly when script generation,
both speech syntheses, the music fetch, the thumbnail and both assemblies
all succeed — so a failure in any of those aborts the run, while failures
of the two stock-media fetches (the only steps wrapped in `try`/`except`)
never do; the upload step cannot raise. -/
theorem run_cycle_fatal_steps (env : CycleEnv) (stamp : String) :
    isOkE (run_cycle env stamp) =
      (isOkE env.genMeta && isOkE env.ttsLong && isOkE env.ttsShort &&
       isOkE env.music && isOkE env.thumb && isOkE env.asmLong &&
       isOkE env.asmShort) := by
  obtain ⟨g, tl, ts, px, pb, mu, th, al, ash, c1, c2, c3⟩ := env
  cases g <;> cases tl <;> cases ts <;> cases mu <;> cases th <;>
    cases al <;> cases ash <;> rfl

/-- Claim C10: whenever a cycle completes, the long assembly was invoked
with the full fetched clip list (Pexels results, in order, before Pixabay
results, each degraded to empty on a caught failure), the short assembly
with the first two entries of that same list, and both with the same
music track. -/
theorem short_assembly_uses_first_two (env : CycleEnv) (stamp : String)
    (tr : CycleTrace) (h : run_cycle env stamp = .ok tr) :
    tr.longCall.clips = okD env.pexels ++ okD env.pixabay
    ∧ tr.shortCall.clips = (okD env.pexels ++ okD env.pixabay).take 2
    ∧ tr.shortCall.music = tr.longCall.music := by
  obtain ⟨g, tl, ts, px, pb, mu, th, al, ash, c1, c2, c3⟩ := env
  cases g <;> cases tl <;> cases ts <;> cases mu <;> cases th <;>
    cases al <;> cases ash <;>
    first
      | (injection h with h'; subst h'; exact ⟨rfl, rfl, rfl⟩)
      | injection h

/-- A cycle environment in which every step succeeds, with two Pexels
clips and one Pixabay clip. -/
def envEx : CycleEnv :=
  { genMeta := .ok bundleEx, ttsLong := .ok (), ttsShort := .ok (),
    pexels := .ok ["p1.mp4", "p2.mp4"], pixabay := .ok ["b1.mp4"],
    music := .ok (some "music/pix_music_7.mp3"), thumb := .ok (),
    asmLong := .ok (), asmShort := .ok (),
    ytCid := none, ytSecret := none, ytTok := none }

/-- The trace of a successful cycle over `envEx` at stamp "s". -/
def trEx : CycleTrace :=
  { clips := ["p1.mp4", "p2.mp4", "b1.mp4"],
    music := some "music/pix_music_7.mp3",
    longCall := ⟨voiceLongPath "s", ["p1.mp4", "p2.mp4", "b1.mp4"],
      some "music/pix_music_7.mp3", longOutPath "s"⟩,
    shortCall := ⟨voiceShortPath "s", ["p1.mp4", "p2.mp4"],
      some "music/pix_music_7.mp3", shortOutPath "s"⟩,
    thumbTitle := Json.str "Money Mind",
    uploads := [.skipped, .skipped], logs := [] }

/-- Witness for the hypothesis of `short_assembly_uses_first_two`: the
successful cycle over `envEx`. -/
theorem short_assembly_uses_first_two_witness :
    trEx.longCall.clips = ["p1.mp4", "p2.mp4", "b1.mp4"]
    ∧ trEx.shortCall.clips = ["p1.mp4", "p2.mp4"]
    ∧ trEx.shortCall.music = trEx.longCall.music :=
  short_assembly_uses_first_two envEx "s" trEx rfl

/-- Claim C6: for either fetcher, a hit among the first `count` whose
destination file (named by its remote id) already exists on disk causes no
download request for that destination, and its path still appears in the
returned list. -/
theorem fetch_cached_no_redownload (count : Nat) (phits : List PexelsHit)
    (bhits : List PixabayHit) (fsP fsB : List String)
    (v : PexelsHit) (b : PixabayHit) (u : String)
    (hv : v ∈ phits.take count) (hvf : pexelsDest v.id ∈ fsP)
    (hb : b ∈ bhits.take count) (hbu : b.mediumUrl = some u)
    (hbf : pixVideoDest b.id ∈ fsB) :
    (pexelsDest v.id ∈ (fetch_pexels_videos count phits fsP).out
     ∧ ∀ url, (pexelsDest v.id, url) ∉ (fetch_pexels_videos count phits fsP).downloads)
    ∧ (pixVideoDest b.id ∈ (fetch_pixabay_media true count bhits fsB).out
     ∧ ∀ url,
        (pixVideoDest b.id, url) ∉ (fetch_pixabay_media true count bhits fsB).downloads) := by
  have pexMono : ∀ st c y, y ∈ st.out → y ∈ (pexelsStep st c).out := by
    intro st c y hy
    unfold pexelsStep
    dsimp only
    split <;> exact List.mem_append_left _ hy
  have pexSelf : ∀ st, pexelsDest v.id ∈ (pexelsStep st v).out := by
    intro st
    unfold pexelsStep
    dsimp only
    split <;> exact List.mem_append_right _ (List.mem_singleton.mpr rfl)
  have pixMono : ∀ st c y, y ∈ st.out → y ∈ (pixabayVideoStep st c).out := by
    intro st c y hy
    unfold pixabayVideoStep
    cases c.mediumUrl with
    | none => exact hy
    | some url => dsimp only; split <;> exact List.mem_append_left _ hy
  have pixSelf : ∀ st, pixVideoDest b.id ∈ (pixabayVideoStep st b).out := by
    intro st
    unfold pixabayVideoStep
    rw [hbu]
    dsimp only
    split <;> exact List.mem_append_right _ (List.mem_singleton.mpr rfl)
  have pexInv : ∀ st c,
      (pexelsDest v.id ∈ st.files ∧ ∀ url, (pexelsDest v.id, url) ∉ st.downloads) →
      (pexelsDest v.id ∈ (pexelsStep st c).files ∧
        ∀ url, (pexelsDest v.id, url) ∉ (pexelsStep st c).downloads) := by
    intro st c ⟨hf, hd⟩
    unfold pexelsStep
    dsimp only
    split
    · exact ⟨hf, hd⟩
    · next hnin =>
      refine ⟨List.mem_append_left _ hf, fun url hmem => ?_⟩
      rcases List.mem_append.mp hmem with hold | hnew
      · exact hd url hold
      · have heq := List.mem_singleton.mp hnew
        have h1 : pexelsDest v.id = pexelsDest c.id := congrArg Prod.fst heq
        exact hnin (h1 ▸ hf)
  have pixInv : ∀ st c,
      (pixVideoDest b.id ∈ st.files ∧ ∀ url, (pixVideoDest b.id, url) ∉ st.downloads) →
      (pixVideoDest b.id ∈ (pixabayVideoStep st c).files ∧
        ∀ url, (pixVideoDest b.id, url) ∉ (pixabayVideoStep st c).downloads) := by
    intro st c ⟨hf, hd⟩
    unfold pixabayVideoStep
    cases c.mediumUrl with
    | none => exact ⟨hf, hd⟩
    | some url' =>
      dsimp only
      split
      · exact ⟨hf, hd⟩
      · next hnin =>
        refine ⟨List.mem_append_left _ hf, fun url hmem => ?_⟩
        rcases List.mem_append.mp hmem with hold | hnew
        · exact hd url hold
        · have heq := List.mem_singleton.mp hnew
          have h1 : pixVideoDest b.id = pixVideoDest c.id := congrArg Prod.fst heq
          exact hnin (h1 ▸ hf)
  refine ⟨⟨?_, ?_⟩, ⟨?_, ?_⟩⟩
  · exact foldl_out_mem pexelsStep (pexelsDest v.id) pexMono _ v hv pexSelf _
  · intro url
    have := foldl_pres pexelsStep
      (fun st => pexelsDest v.id ∈ st.files ∧
        ∀ u', (pexelsDest v.id, u') ∉ st.downloads)
      pexInv (phits.take count) { out := [], files := fsP, downloads := [] }
      ⟨hvf, fun u' h' => (List.not_mem_nil _ h')⟩
    exact this.2 url
  · show pixVideoDest b.id ∈
      ((bhits.take count).foldl pixabayVideoStep
        { out := [], files := fsB, downloads := [] }).out
    exact foldl_out_mem pixabayVideoStep (pixVideoDest b.id) pixMono _ b hb pixSelf _
  · intro url
    show (pixVideoDest b.id, url) ∉
      ((bhits.take count).foldl pixabayVideoStep
        { out := [], files := fsB, downloads := [] }).downloads
    have := foldl_pres pixabayVideoStep
      (fun st => pixVideoDest b.id ∈ st.files ∧
        ∀ u', (pixVideoDest b.id, u') ∉ st.downloads)
      pixInv (bhits.take count) { out := [], files := fsB, downloads := [] }
      ⟨hbf, fun u' h' => (List.not_mem_nil _ h')⟩
    exact this.2 url

/-- Witness for the hypotheses of `fetch_cached_no_redownload`: one hit per
fetcher, each destination already on disk. -/
theorem fetch_cached_no_redownload_witness :
    (pexelsDest 1 ∈ (fetch_pexels_videos 1 [⟨1, "u1"⟩] [pexelsDest 1]).out
     ∧ ∀ url, (pexelsDest 1, url) ∉ (fetch_pexels_videos 1 [⟨1, "u1"⟩] [pexelsDest 1]).downloads)
    ∧ (pixVideoDest 2 ∈
        (fetch_pixabay_media true 1 [⟨2, some "u2", none⟩] [pixVideoDest 2]).out
     ∧ ∀ url, (pixVideoDest 2, url) ∉
        (fetch_pixabay_media true 1 [⟨2, some "u2", none⟩] [pixVideoDest 2]).downloads) :=
  fetch_cached_no_redownload 1 [⟨1, "u1"⟩] [⟨2, some "u2", none⟩]
    [pexelsDest 1] [pixVideoDest 2] ⟨1, "u1"⟩ ⟨2, some "u2", none⟩ "u2"
    (List.mem_singleton.mpr rfl) (List.mem_singleton.mpr rfl)
    (List.mem_singleton.mpr rfl) rfl (List.mem_singleton.mpr rfl)

end MoneyMind
